import Mathlib

/-!
Verification of the LyricsScraping repository's de-duplication and extraction
core against its natural-language specification.

The Python sources are shallowly embedded: methods become pure functions over
explicit state records, raised exceptions become `Except` error values, and
text is represented as `List Char`.  The repository contains two revisions of
the same scraper; definitions whose names start with `legacy` come from the
older revision under `src/scrapers/`, the remaining ones from the current
package `src/lyrics_scraping/`.
-/

set_option autoImplicit false

deriving instance DecidableEq for Except

/-! ## Text helpers (Python string and `re` primitives used by the scraper) -/

/-- Python `str.isdecimal()` restricted to ASCII: nonempty and all digits. -/
def pyIsdecimal (s : List Char) : Bool :=
  !s.isEmpty && s.all Char.isDigit

/-- The specification's year regex `^[0-9]{4}$`: exactly four decimal digits. -/
def matchesFourDigitYear (s : List Char) : Bool :=
  s.length == 4 && s.all Char.isDigit

/-- Scanner for `re.findall(r'\d+', s)`: `cur` holds the digits of the run in
progress, in reverse. -/
def findallDigitsAux (cur : List Char) : List Char → List (List Char)
  | [] => if cur.isEmpty then [] else [cur.reverse]
  | c :: rest =>
    if c.isDigit then findallDigitsAux (c :: cur) rest
    else if cur.isEmpty then findallDigitsAux [] rest
    else cur.reverse :: findallDigitsAux [] rest

/-- Python `re.findall(r'\d+', s)`: the maximal runs of decimal digits in `s`,
in order. -/
def findallDigits (s : List Char) : List (List Char) :=
  findallDigitsAux [] s

/-- Scanner for `re.findall(r'\((\d+)\)', s)`.  The state is `none` while
looking for a `'('`, or `some ds` with the digits seen since the last open
parenthesis, in reverse.  On a failed match the regex engine resumes right
after the `'('` that started it; as the buffered characters are all digits,
the only candidate restart inside them is the current character itself when it
is another `'('`. -/
def findallParenAux : Option (List Char) → List Char → List (List Char)
  | _, [] => []
  | none, c :: rest =>
    if c = '(' then findallParenAux (some []) rest
    else findallParenAux none rest
  | some ds, c :: rest =>
    if c.isDigit then findallParenAux (some (c :: ds)) rest
    else if c = ')' && !ds.isEmpty then ds.reverse :: findallParenAux none rest
    else if c = '(' then findallParenAux (some []) rest
    else findallParenAux none rest

/-- Python `re.findall(r'\((\d+)\)', s)`: the digit runs that are immediately
enclosed in parentheses, in order (used on an album `<div>`'s displayed text,
`azlyrics_scraper.py:195`). -/
def findallParenDigits (s : List Char) : List (List Char) :=
  findallParenAux none s

/-- Interpret a digit run as the Python `int(...)` of it. -/
def digitsToNat (s : List Char) : Nat :=
  s.foldl (fun acc c => acc * 10 + (c.toNat - '0'.toNat)) 0

/-! ## Album-year validation (claim C3 and the artist-page pipeline)

`_check_album_year` appears verbatim both as
`AZLyricsScraper._check_album_year` (azlyrics_scraper.py:324-342) and as
`Album.check_album_year` (lyrics_scraper.py:1098-1116). -/

inductive YearError where
  | nonUniqueAlbumYear
  | wrongAlbumYear
  deriving DecidableEq, Repr

/-- `_check_album_year(year_result)` (azlyrics_scraper.py:324-342):
`len(year_result) != 1` raises `NonUniqueAlbumYearError`; a unique entry that
is not four decimal digits raises `WrongAlbumYearError`. -/
def checkAlbumYear (yearResult : List (List Char)) : Except YearError Unit :=
  match yearResult with
  | [y0] =>
    if !(y0.length == 4 && pyIsdecimal y0) then .error .wrongAlbumYear
    else .ok ()
  | _ => .error .nonUniqueAlbumYear

/-- The year sanity check inlined in the legacy `_crawl_lyrics_page`
(src/scrapers/azlyrics_scraper.py:177-190): a unique digit run is accepted iff
it starts with `'19'` or `'20'`, with no length requirement. -/
def legacyCheckAlbumYear (yearRes : List (List Char)) : Except YearError Unit :=
  match yearRes with
  | [y0] =>
    if !(List.isPrefixOf ['1', '9'] y0 || List.isPrefixOf ['2', '0'] y0) then
      .error .wrongAlbumYear
    else .ok ()
  | _ => .error .nonUniqueAlbumYear

/-- The per-album year extraction of the current `_scrape_lyrics_page`
(azlyrics_scraper.py:1034-1050): run `re.findall(r'\d+', ...)` over the album
block's `contents[2]` text, require a unique four-digit run, and keep it
verbatim as a string (`song_year = year_result[0]`). -/
def songPageAlbumYear (contents2 : List Char) : Except YearError (List Char) :=
  let yearResult := findallDigits contents2
  match yearResult with
  | [y0] =>
    if !(y0.length == 4 && pyIsdecimal y0) then .error .wrongAlbumYear
    else .ok y0
  | _ => .error .nonUniqueAlbumYear

theorem fourDigit_check_eq (y : List Char) :
    (y.length == 4 && pyIsdecimal y) = matchesFourDigitYear y := by
  cases y with
  | nil => simp [pyIsdecimal, matchesFourDigitYear]
  | cons c t => simp [pyIsdecimal, matchesFourDigitYear]

/-- C3 (counterexample): the legacy year check of `_crawl_lyrics_page`
(src/scrapers/azlyrics_scraper.py:177-190) accepts the three-digit group
`"195"` (it only tests the `'19'`/`'20'` prefix), whereas the claim says a
single group that is not exactly four decimal digits raises the wrong-format
condition. -/
theorem legacyCheckAlbumYear_accepts_three_digits :
    legacyCheckAlbumYear ["195".toList] = Except.ok () ∧
    matchesFourDigitYear "195".toList = false := by
  decide

/-- C3 (amended): the current validation (`_check_album_year`,
azlyrics_scraper.py:324-342, and the inline check of `_scrape_lyrics_page`,
azlyrics_scraper.py:1034-1050) accepts iff there is exactly one extracted
digit group and it is exactly four decimal digits; zero or two-plus groups
raise the non-unique-year condition, a unique group of any other length the
wrong-format condition, and on song pages the accepted year is returned
verbatim as the extracted string.  The legacy `_crawl_lyrics_page`
(src/scrapers/azlyrics_scraper.py:177-190) instead accepts a unique group iff
it starts with `'19'` or `'20'`, regardless of length. -/
theorem albumYear_validation_characterization :
    (∀ ys, checkAlbumYear ys = Except.ok () ↔
      ∃ y, ys = [y] ∧ matchesFourDigitYear y = true) ∧
    (∀ ys, ys.length ≠ 1 → checkAlbumYear ys = Except.error .nonUniqueAlbumYear) ∧
    (∀ y, matchesFourDigitYear y = false →
      checkAlbumYear [y] = Except.error .wrongAlbumYear) ∧
    (∀ c y, findallDigits c = [y] → matchesFourDigitYear y = true →
      songPageAlbumYear c = Except.ok y) ∧
    (∀ y, legacyCheckAlbumYear [y] = Except.ok () ↔
      (List.isPrefixOf ['1', '9'] y || List.isPrefixOf ['2', '0'] y) = true) := by
  refine ⟨?_, ?_, ?_, ?_, ?_⟩
  · intro ys
    match ys with
    | [] => simp [checkAlbumYear]
    | [y] =>
      rw [checkAlbumYear, fourDigit_check_eq]
      cases h : matchesFourDigitYear y <;> simp [h]
    | y1 :: y2 :: t => simp [checkAlbumYear]
  · intro ys h
    match ys with
    | [] => rfl
    | [y] => simp at h
    | y1 :: y2 :: t => rfl
  · intro y h
    rw [checkAlbumYear, fourDigit_check_eq, h]
    rfl
  · intro c y hfind hy
    rw [songPageAlbumYear]
    simp only [hfind]
    rw [fourDigit_check_eq, hy]
    rfl
  · intro y
    rw [legacyCheckAlbumYear]
    cases h : (List.isPrefixOf ['1', '9'] y || List.isPrefixOf ['2', '0'] y) <;>
      simp [h]

/-- Witness for `albumYear_validation_characterization` at concrete inputs. -/
theorem albumYear_validation_characterization_witness :
    checkAlbumYear ["1981".toList] = Except.ok () ∧
    checkAlbumYear ["195".toList] = Except.error .wrongAlbumYear ∧
    songPageAlbumYear " (1981)".toList = Except.ok "1981".toList := by
  refine ⟨?_, ?_, ?_⟩
  · exact (albumYear_validation_characterization.1 _).2 ⟨"1981".toList, rfl, by decide⟩
  · exact albumYear_validation_characterization.2.2.1 _ (by decide)
  · exact albumYear_validation_characterization.2.2.2.1 _ _ (by decide) (by decide)

/-! ## URL classification (claims C4 and C9) -/

inductive UrlCategory where
  | songPage
  | artistPage
  deriving DecidableEq, Repr

inductive ClassifyError where
  | invalidURLCategory
  | indexError
  deriving DecidableEq, Repr

/-- The URL-category dispatch of `_get_lyrics_from_url`
(azlyrics_scraper.py:812-840), identical in the legacy `_process_url`
(src/scrapers/azlyrics_scraper.py:280-297), as a function of
`urlparse(url).path`.  Evaluating `path[1]` on a path with fewer than two
characters raises `IndexError`. -/
def classifyUrlPath (path : List Char) : Except ClassifyError UrlCategory :=
  if List.isPrefixOf "/lyrics/".toList path then .ok .songPage
  else if List.isPrefixOf "/19/".toList path then .ok .artistPage
  else
    match (path.drop 1).head? with
    | none => .error .indexError
    | some c => if c.isAlpha then .ok .artistPage else .error .invalidURLCategory

/-- The first path segment of a URL path: the text between the leading slash
and the following slash (the claim's phrasing of the artist-page rule). -/
def firstPathSegment (path : List Char) : List Char :=
  (path.drop 1).takeWhile (fun c => c != '/')


/-- Whether the first path segment begins with an alphabetic character. -/
def firstSegmentStartsAlpha (path : List Char) : Bool :=
  Option.any Char.isAlpha (firstPathSegment path).head?

/-- C9: the classifier is not total over valid-domain URLs.  On the empty path
(URL `https://www.azlyrics.com`) and the one-character path
(URL `https://www.azlyrics.com/`) the unguarded `path[1]` raises `IndexError`
instead of `InvalidURLCategoryError`, while a longer unrecognized path does
get `InvalidURLCategoryError`. -/
theorem classifier_short_path_indexError :
    classifyUrlPath "/".toList = Except.error .indexError ∧
    classifyUrlPath "".toList = Except.error .indexError ∧
    classifyUrlPath "/0ther/thing.html".toList = Except.error .invalidURLCategory := by
  decide

/-- C4 (counterexample): the path `"/"` matches neither category rule, yet the
classifier fails with `IndexError` rather than raising
`InvalidURLCategoryError` as the claim states for every non-matching path. -/
theorem classifyUrlPath_slash_counterexample :
    classifyUrlPath "/".toList = Except.error .indexError ∧
    (Except.error .indexError : Except ClassifyError UrlCategory) ≠
      Except.error .invalidURLCategory := by
  decide

/-- C4 (amended): for paths of domain-validated URLs (which start with `'/'`),
classification returns SONG_PAGE iff the path starts with `"/lyrics/"`;
it returns ARTIST_PAGE iff the path is not a song path and either starts with
the numeric bucket `"/19/"` or its first path segment begins with an
alphabetic character; and it raises `InvalidURLCategoryError` for every other
path with at least two characters (shorter paths fail with an unguarded
`IndexError` instead; see C9). -/
theorem classifyUrlPath_characterization :
    (∀ p, classifyUrlPath p = Except.ok .songPage ↔
      List.isPrefixOf "/lyrics/".toList p = true) ∧
    (∀ t, classifyUrlPath ('/' :: t) = Except.ok .artistPage ↔
      (List.isPrefixOf "/lyrics/".toList ('/' :: t) = false ∧
        (List.isPrefixOf "/19/".toList ('/' :: t) = true ∨
          firstSegmentStartsAlpha ('/' :: t) = true))) ∧
    (∀ c t, List.isPrefixOf "/lyrics/".toList ('/' :: c :: t) = false →
      List.isPrefixOf "/19/".toList ('/' :: c :: t) = false →
      firstSegmentStartsAlpha ('/' :: c :: t) = false →
      classifyUrlPath ('/' :: c :: t) = Except.error .invalidURLCategory) := by
  refine ⟨?_, ?_, ?_⟩
  · intro p
    rw [classifyUrlPath]
    cases hl : List.isPrefixOf "/lyrics/".toList p with
    | true => simp
    | false =>
      cases h19 : List.isPrefixOf "/19/".toList p with
      | true => simp
      | false =>
        cases hc : (p.drop 1).head? with
        | none => simp
        | some c => cases ha : c.isAlpha <;> simp [ha]
  · intro t
    rw [classifyUrlPath]
    cases hl : List.isPrefixOf "/lyrics/".toList ('/' :: t) with
    | true => simp
    | false =>
      cases h19 : List.isPrefixOf "/19/".toList ('/' :: t) with
      | true => simp
      | false =>
        cases t with
        | nil => simp [firstSegmentStartsAlpha, firstPathSegment]
        | cons c t' =>
          have hc : ((('/' : Char) :: c :: t').drop 1).head? = some c := rfl
          rw [hc]
          by_cases hslash : c = '/'
          · subst hslash
            simp [firstSegmentStartsAlpha, firstPathSegment, List.takeWhile_cons]
          · cases ha : c.isAlpha with
            | true =>
              simp [ha, firstSegmentStartsAlpha, firstPathSegment,
                List.takeWhile_cons, hslash]
            | false =>
              simp [ha, firstSegmentStartsAlpha, firstPathSegment,
                List.takeWhile_cons, hslash]
  · intro c t hl h19 hseg
    rw [classifyUrlPath]
    have hc : ((('/' : Char) :: c :: t).drop 1).head? = some c := rfl
    simp only [hl, h19, Bool.false_eq_true, if_false, hc]
    by_cases hslash : c = '/'
    · subst hslash
      simp
    · have ha : c.isAlpha = false := by
        simpa [firstSegmentStartsAlpha, firstPathSegment, List.takeWhile_cons,
          hslash] using hseg
      simp [ha]

/-- Witness for `classifyUrlPath_characterization` at concrete paths. -/
theorem classifyUrlPath_characterization_witness :
    classifyUrlPath "/lyrics/x/y.html".toList = Except.ok .songPage ∧
    classifyUrlPath "/a/artist.html".toList = Except.ok .artistPage ∧
    classifyUrlPath "/0ther/thing.html".toList = Except.error .invalidURLCategory := by
  refine ⟨?_, ?_, ?_⟩
  · exact (classifyUrlPath_characterization.1 _).2 (by decide)
  · exact (classifyUrlPath_characterization.2.1 "a/artist.html".toList).2
      (by refine ⟨by decide, Or.inr ?_⟩; decide)
  · exact classifyUrlPath_characterization.2.2 '0' "ther/thing.html".toList
      (by decide) (by decide) (by decide)

/-! ## Lyrics extraction (claim C2) -/

/-- An HTML `<div>` as the lyrics extractors see it: whether it carries a
`class` attribute, whether it carries an `id` attribute, and its text. -/
structure HtmlDiv where
  hasClass : Bool
  hasId : Bool
  text : List Char
  deriving DecidableEq, Repr

/-- `soup.find_all("div", class_="", id="")` (azlyrics_scraper.py:993 and the
legacy src/scrapers/azlyrics_scraper.py:153): the `<div>` blocks with neither
a class nor an id attribute. -/
def findLyricsDivs (divs : List HtmlDiv) : List HtmlDiv :=
  divs.filter (fun d => !d.hasClass && !d.hasId)

/-- Python `str.strip()`: remove leading and trailing whitespace. -/
def pyStrip (s : List Char) : List Char :=
  ((s.dropWhile Char.isWhitespace).reverse.dropWhile Char.isWhitespace).reverse

inductive LyricsError where
  | nonUniqueLyrics
  | indexError
  deriving DecidableEq, Repr

/-- The lyrics-block extraction of the current `_scrape_lyrics_page`
(azlyrics_scraper.py:993-1004): any number of matching blocks other than one
raises `NonUniqueLyricsError`; the unique block's text is stripped and
returned. -/
def scrapeLyricsText (divs : List HtmlDiv) : Except LyricsError (List Char) :=
  let res := findLyricsDivs divs
  if res.length ≠ 1 then .error .nonUniqueLyrics
  else
    match res.head? with
    | some d => .ok (pyStrip d.text)
    | none => .error .indexError

/-- The lyrics-block extraction of the legacy `_crawl_lyrics_page`
(src/scrapers/azlyrics_scraper.py:153-160): only MORE than one matching block
raises `NonUniqueLyricsError`; `lyrics_res[0]` is then read unguarded, which
on an empty result raises `IndexError`. -/
def crawlLyricsText (divs : List HtmlDiv) : Except LyricsError (List Char) :=
  let res := findLyricsDivs divs
  if res.length > 1 then .error .nonUniqueLyrics
  else
    match res.head? with
    | some d => .ok (pyStrip d.text)
    | none => .error .indexError

/-- C2: evaluation at the failing input.  On a page with zero blocks lacking
both class and id, the legacy `_crawl_lyrics_page` raises `IndexError`
(contradicting its own `NonUniqueLyricsError` message "no lyrics found or
more than one lyrics were found"), while the current `_scrape_lyrics_page`
raises `NonUniqueLyricsError` as the claim states; both revisions agree on
the two-block and one-block pages. -/
theorem crawlLyricsPage_zero_blocks_indexError :
    crawlLyricsText [⟨true, true, "nav".toList⟩] = Except.error .indexError ∧
    scrapeLyricsText [⟨true, true, "nav".toList⟩] = Except.error .nonUniqueLyrics ∧
    crawlLyricsText [⟨false, false, " one ".toList⟩, ⟨false, false, "two".toList⟩] =
      Except.error .nonUniqueLyrics ∧
    scrapeLyricsText [⟨false, false, " one ".toList⟩, ⟨false, false, "two".toList⟩] =
      Except.error .nonUniqueLyrics ∧
    crawlLyricsText [⟨true, false, "nav".toList⟩, ⟨false, false, " one ".toList⟩] =
      Except.ok "one".toList ∧
    scrapeLyricsText [⟨true, false, "nav".toList⟩, ⟨false, false, " one ".toList⟩] =
      Except.ok "one".toList := by
  decide

/-! ## Record store and session tracking (claims C1 and C5) -/

/-- A row of the `songs` table (§6 of the specification; the tuple built by
`_save_song`, lyrics_scraper.py:831). -/
structure SongRow where
  songTitle : String
  artistName : String
  albumTitle : String
  lyricsUrl : String
  lyrics : String
  year : String
  deriving DecidableEq, Repr

/-- The three tables of the music database. -/
structure MusicDb where
  artists : List String
  albums : List (String × String × String)
  songs : List SongRow
  deriving DecidableEq, Repr

/-- `_select_song_from_url` (lyrics_scraper.py:1029-1052): all song rows whose
`lyrics_url` equals the given URL. -/
def selectSongFromUrl (db : MusicDb) (url : String) : List SongRow :=
  db.songs.filter (fun r => r.lyricsUrl == url)

inductive SessionError where
  | multipleLyricsURL
  deriving DecidableEq, Repr

/-- The slice of `LyricsScraper` state consulted by the session-tracking
check: the in-run `checked_urls` set, whether a database path is configured,
the `overwrite_db` flag, and the store contents. -/
structure SessionState where
  checkedUrls : List String
  dbFilepath : Bool
  overwriteDb : Bool
  db : MusicDb
  deriving DecidableEq, Repr

/-- `_url_in_db` (lyrics_scraper.py:543-598): retcode 2 when the URL is in
the store once and `overwrite_db` is set, 1 when it is in the store once and
`overwrite_db` is unset, 0 when absent; more than one match raises
`MultipleLyricsURLError`. -/
def urlInDb (s : SessionState) (url : String) : Except SessionError Nat :=
  let res := selectSongFromUrl s.db url
  if res.length = 1 then (if s.overwriteDb then .ok 2 else .ok 1)
  else if res.length = 0 then .ok 0
  else .error .multipleLyricsURL

/-- `_url_already_processed` (lyrics_scraper.py:506-541): retcode 1 without
touching the store when the URL is already in `checked_urls`; retcode 2 when
the store reports it updatable; otherwise retcode 0 and the URL is added to
`checked_urls`. -/
def urlAlreadyProcessed (s : SessionState) (url : String) :
    Except SessionError (Nat × SessionState) :=
  if url ∈ s.checkedUrls then .ok (1, s)
  else if s.dbFilepath then
    match urlInDb s url with
    | .error e => .error e
    | .ok r =>
      if r = 2 then .ok (2, s)
      else .ok (0, { s with checkedUrls := url :: s.checkedUrls })
  else .ok (0, { s with checkedUrls := url :: s.checkedUrls })

/-- A store state holding the checked URL exactly once, with overwriting
enabled. -/
def sessionOverwriteExample : SessionState :=
  { checkedUrls := []
    dbFilepath := true
    overwriteDb := true
    db := { artists := []
            albums := []
            songs := [{ songTitle := "t", artistName := "a", albumTitle := "b",
                        lyricsUrl := "https://www.azlyrics.com/lyrics/a/t.html",
                        lyrics := "l", year := "1999" }] } }

/-- C1 (counterexample): with the URL present once in the store and
`overwrite_db = True`, the first call returns retcode 2 (updatable), not 0
(NEW), and leaves the session set unchanged — so a second call also returns
2 rather than the session short-circuit.  The claim's "regardless of what the
record store contains" is therefore false. -/
theorem urlAlreadyProcessed_overwrite_counterexample :
    urlAlreadyProcessed sessionOverwriteExample
        "https://www.azlyrics.com/lyrics/a/t.html" =
      Except.ok (2, sessionOverwriteExample) ∧ (2 : Nat) ≠ 0 := by
  decide

/-- C1 (amended): starting from a state where `u` was not yet checked this
run, and provided the store query does not classify `u` as updatable and does
not raise — that is, no database is configured, or `u` occurs zero times in
the store, or exactly once with `overwrite_db` disabled — the first call
returns 0 (NEW) and records `u` in the session set, and the second call takes
the "already processed this session" short-circuit (retcode 1), leaving the
state unchanged and without consulting the store. -/
theorem urlAlreadyProcessed_two_calls (s : SessionState) (u : String)
    (h1 : u ∉ s.checkedUrls)
    (h2 : s.dbFilepath = true →
      (selectSongFromUrl s.db u).length = 0 ∨
      ((selectSongFromUrl s.db u).length = 1 ∧ s.overwriteDb = false)) :
    urlAlreadyProcessed s u =
      Except.ok (0, { s with checkedUrls := u :: s.checkedUrls }) ∧
    urlAlreadyProcessed { s with checkedUrls := u :: s.checkedUrls } u =
      Except.ok (1, { s with checkedUrls := u :: s.checkedUrls }) := by
  constructor
  · rw [urlAlreadyProcessed, if_neg h1]
    cases hdb : s.dbFilepath with
    | false => simp
    | true =>
      rcases h2 hdb with h | ⟨hlen, hov⟩
      · simp [urlInDb, h]
      · simp [urlInDb, hlen, hov]
  · rw [urlAlreadyProcessed, if_pos (List.mem_cons_self u s.checkedUrls)]

/-- Witness for `urlAlreadyProcessed_two_calls`: a fresh URL against an empty
store with a database configured. -/
theorem urlAlreadyProcessed_two_calls_witness :
    urlAlreadyProcessed ⟨[], true, false, ⟨[], [], []⟩⟩ "u" =
      Except.ok (0, ⟨["u"], true, false, ⟨[], [], []⟩⟩) ∧
    urlAlreadyProcessed ⟨["u"], true, false, ⟨[], [], []⟩⟩ "u" =
      Except.ok (1, ⟨["u"], true, false, ⟨[], [], []⟩⟩) :=
  urlAlreadyProcessed_two_calls ⟨[], true, false, ⟨[], [], []⟩⟩ "u"
    (by decide) (fun _ => Or.inl (by decide))

/-- Modelled from the spec: the uniqueness constraint of the `artists` table
in the `music.sql` schema, which is referenced by the code but not under
`src/` — an artist's identity is its name (§3, §6). -/
def artistInsertViolates (db : MusicDb) (name : String) : Bool :=
  db.artists.contains name

/-- Modelled from the spec: the uniqueness constraint of the `albums` table —
album identity is `(album_title, artist_name)` (§3, §6). -/
def albumInsertViolates (db : MusicDb) (album : String × String × String) : Bool :=
  db.albums.any (fun r => r.1 == album.1 && r.2.1 == album.2.1)

/-- Modelled from the spec: the uniqueness constraint of the `songs` table —
`lyrics_url` is unique per row (§3, §6). -/
def songInsertViolates (db : MusicDb) (song : SongRow) : Bool :=
  db.songs.any (fun r => r.lyricsUrl == song.lyricsUrl)

/-- `_insert_artist` through `_execute_sql` (lyrics_scraper.py:944-970 and
992-1007): an `sqlite3.IntegrityError` on a duplicate is caught and absorbed,
returning `None`; otherwise the row is appended and `lastrowid` returned. -/
def insertArtist (db : MusicDb) (name : String) : MusicDb × Option Nat :=
  if artistInsertViolates db name then (db, none)
  else ({ db with artists := db.artists ++ [name] }, some (db.artists.length + 1))

/-- `_insert_album` through `_execute_sql` (lyrics_scraper.py:944-990). -/
def insertAlbum (db : MusicDb) (album : String × String × String) :
    MusicDb × Option Nat :=
  if albumInsertViolates db album then (db, none)
  else ({ db with albums := db.albums ++ [album] }, some (db.albums.length + 1))

/-- `_insert_song` through `_execute_sql` (lyrics_scraper.py:944-970 and
1009-1027). -/
def insertSong (db : MusicDb) (song : SongRow) : MusicDb × Option Nat :=
  if songInsertViolates db song then (db, none)
  else ({ db with songs := db.songs ++ [song] }, some (db.songs.length + 1))

/-- `_update_scraped_data` (lyrics_scraper.py:845-870): append the tuple to
the in-memory mirror only if it is not already present. -/
def updateScrapedData {α : Type} [DecidableEq α] (dataTuple : α)
    (scrapedData : List α) : List α :=
  if dataTuple ∈ scrapedData then scrapedData else scrapedData ++ [dataTuple]

/-- The in-memory `scraped_data` mirror (lyrics_scraper.py:166-180), one
ordered de-duplicated tuple list per table. -/
structure ScrapedData where
  artistsData : List String
  albumsData : List (String × String × String)
  songsData : List SongRow
  deriving DecidableEq, Repr

/-- The state touched by the `_save_*` methods: whether a database connection
exists, the store, and the in-memory mirror. -/
structure SaveState where
  dbConn : Bool
  db : MusicDb
  scraped : ScrapedData
  deriving DecidableEq, Repr

/-- `_count_empty_items` (lyrics_scraper.py:600-627): the number of falsy
(empty-string) fields. -/
def countEmptyItems (data : List String) : Nat :=
  (data.filter (fun f => f == "")).length

/-- `_save_artist` (lyrics_scraper.py:773-801). -/
def saveArtist (st : SaveState) (artistName : String) : SaveState :=
  if countEmptyItems [artistName] = 0 then
    { st with
      db := if st.dbConn then (insertArtist st.db artistName).1 else st.db
      scraped := { st.scraped with
        artistsData := updateScrapedData artistName st.scraped.artistsData } }
  else st

/-- `_save_album` (lyrics_scraper.py:739-771): the emptiness check covers only
the title and artist (`album_tuple[0:2]`). -/
def saveAlbum (st : SaveState) (albumTitle artistName year : String) : SaveState :=
  if countEmptyItems [albumTitle, artistName] = 0 then
    { st with
      db := if st.dbConn then (insertAlbum st.db (albumTitle, artistName, year)).1
            else st.db
      scraped := { st.scraped with
        albumsData := updateScrapedData (albumTitle, artistName, year)
          st.scraped.albumsData } }
  else st

/-- `_save_song` (lyrics_scraper.py:803-843): the emptiness check covers only
the song title (`song_tuple[0:1]`). -/
def saveSong (st : SaveState) (song : SongRow) : SaveState :=
  if countEmptyItems [song.songTitle] = 0 then
    { st with
      db := if st.dbConn then (insertSong st.db song).1 else st.db
      scraped := { st.scraped with
        songsData := updateScrapedData song st.scraped.songsData } }
  else st

theorem insertArtist_violates_after (db : MusicDb) (n : String) :
    artistInsertViolates (insertArtist db n).1 n = true := by
  by_cases h : artistInsertViolates db n = true
  · rw [insertArtist, if_pos h]
    exact h
  · rw [insertArtist, if_neg h]
    simp [artistInsertViolates]

theorem insertAlbum_violates_after (db : MusicDb) (al : String × String × String) :
    albumInsertViolates (insertAlbum db al).1 al = true := by
  by_cases h : albumInsertViolates db al = true
  · rw [insertAlbum, if_pos h]
    exact h
  · rw [insertAlbum, if_neg h]
    simp [albumInsertViolates]

theorem insertSong_violates_after (db : MusicDb) (song : SongRow) :
    songInsertViolates (insertSong db song).1 song = true := by
  by_cases h : songInsertViolates db song = true
  · rw [insertSong, if_pos h]
    exact h
  · rw [insertSong, if_neg h]
    simp [songInsertViolates]

theorem updateScrapedData_idem {α : Type} [DecidableEq α] (t : α) (l : List α) :
    updateScrapedData t (updateScrapedData t l) = updateScrapedData t l := by
  by_cases h : t ∈ l <;> simp [updateScrapedData, h]

theorem insertArtist_after_eq (db : MusicDb) (n : String) :
    insertArtist (insertArtist db n).1 n = ((insertArtist db n).1, none) := by
  rw [insertArtist, if_pos (insertArtist_violates_after db n)]

theorem insertAlbum_after_eq (db : MusicDb) (al : String × String × String) :
    insertAlbum (insertAlbum db al).1 al = ((insertAlbum db al).1, none) := by
  rw [insertAlbum, if_pos (insertAlbum_violates_after db al)]

theorem insertSong_after_eq (db : MusicDb) (song : SongRow) :
    insertSong (insertSong db song).1 song = ((insertSong db song).1, none) := by
  rw [insertSong, if_pos (insertSong_violates_after db song)]

theorem saveArtist_idem (st : SaveState) (a : String) :
    saveArtist (saveArtist st a) a = saveArtist st a := by
  obtain ⟨dbc, db, sc⟩ := st
  by_cases hc : countEmptyItems [a] = 0
  · cases dbc with
    | false => simp [saveArtist, hc, updateScrapedData_idem]
    | true => simp [saveArtist, hc, updateScrapedData_idem, insertArtist_after_eq]
  · simp [saveArtist, hc]

theorem saveAlbum_idem (st : SaveState) (t a y : String) :
    saveAlbum (saveAlbum st t a y) t a y = saveAlbum st t a y := by
  obtain ⟨dbc, db, sc⟩ := st
  by_cases hc : countEmptyItems [t, a] = 0
  · cases dbc with
    | false => simp [saveAlbum, hc, updateScrapedData_idem]
    | true => simp [saveAlbum, hc, updateScrapedData_idem, insertAlbum_after_eq]
  · simp [saveAlbum, hc]

theorem saveSong_idem (st : SaveState) (song : SongRow) :
    saveSong (saveSong st song) song = saveSong st song := by
  obtain ⟨dbc, db, sc⟩ := st
  by_cases hc : countEmptyItems [song.songTitle] = 0
  · cases dbc with
    | false => simp [saveSong, hc, updateScrapedData_idem]
    | true => simp [saveSong, hc, updateScrapedData_idem, insertSong_after_eq]
  · simp [saveSong, hc]

/-- C5: insert operations on the record store are idempotent.  Saving the same
artist, album, or song a second time yields exactly the state after saving it
once — store rows and the in-memory `scraped_data` mirror unchanged — and the
second raw insert is the absorbed-IntegrityError no-op (`None` result, not an
error); the mirror update keeps its tuples de-duplicated. -/
theorem recordStore_insert_idempotent :
    (∀ st a, saveArtist (saveArtist st a) a = saveArtist st a) ∧
    (∀ st t a y, saveAlbum (saveAlbum st t a y) t a y = saveAlbum st t a y) ∧
    (∀ st song, saveSong (saveSong st song) song = saveSong st song) ∧
    (∀ db n, (insertArtist (insertArtist db n).1 n).2 = none) ∧
    (∀ db al, (insertAlbum (insertAlbum db al).1 al).2 = none) ∧
    (∀ db song, (insertSong (insertSong db song).1 song).2 = none) ∧
    (∀ (α : Type) [DecidableEq α] (t : α) (l : List α), l.Nodup →
      (updateScrapedData t l).Nodup) := by
  refine ⟨saveArtist_idem, saveAlbum_idem, saveSong_idem, ?_, ?_, ?_, ?_⟩
  · intro db n
    rw [insertArtist_after_eq]
  · intro db al
    rw [insertAlbum_after_eq]
  · intro db song
    rw [insertSong_after_eq]
  · intro α _ t l hl
    by_cases h : t ∈ l
    · simpa [updateScrapedData, h] using hl
    · simp [updateScrapedData, h, List.nodup_append, hl]

/-- Witness for `recordStore_insert_idempotent`: the de-duplication conjunct
applied at a concrete mirror list. -/
theorem recordStore_insert_idempotent_witness :
    (updateScrapedData "a" ["b"]).Nodup :=
  recordStore_insert_idempotent.2.2.2.2.2.2 String "a" ["b"] (by decide)

/-! ## The scraping orchestrator (claims C6 and C8) -/

/-- The exceptions a URL's processing can raise into the `start_scraping`
loop (§7 of the specification and the `except` clauses of both revisions). -/
inductive UrlError where
  | osError
  | urlError
  | fileExists
  | currentSessionURL
  | invalidURLDomain
  | invalidURLCategory
  | multipleLyricsURL
  | overwriteSong
  | http404
  | sqlSanityCheck
  | nonUniqueLyrics
  | nonUniqueAlbumYear
  | wrongAlbumYear
  deriving DecidableEq, Repr

/-- The `except` clauses of the current `start_scraping`
(lyrics_scraper.py:430-446).  The extraction-validation exceptions
(`NonUniqueLyricsError`, `NonUniqueAlbumYearError`, `WrongAlbumYearError`)
are not among them; the class hierarchy of the missing
`lyrics_scraping/exceptions.py` is taken to be flat direct `Exception`
subclasses, as in `src/scrapers/scraper_exceptions.py`. -/
def caughtByLoop : UrlError → Bool
  | .osError => true
  | .urlError => true
  | .fileExists => true
  | .currentSessionURL => true
  | .invalidURLDomain => true
  | .invalidURLCategory => true
  | .multipleLyricsURL => true
  | .overwriteSong => true
  | .http404 => true
  | .sqlSanityCheck => true
  | .nonUniqueLyrics => false
  | .nonUniqueAlbumYear => false
  | .wrongAlbumYear => false

/-- `get_error_msg` from the external `pyutils` helper: the recorded exception
rendered as a string (`str(None)` when no exception object was recorded,
which is what the loop passes for an uncaught exception). -/
def getErrorMsg : Option UrlError → String
  | none => "None"
  | some .osError => "OSError"
  | some .urlError => "URLError"
  | some .fileExists => "FileExistsError"
  | some .currentSessionURL => "CurrentSessionURLError"
  | some .invalidURLDomain => "InvalidURLDomainError"
  | some .invalidURLCategory => "InvalidURLCategoryError"
  | some .multipleLyricsURL => "MultipleLyricsURLError"
  | some .overwriteSong => "OverwriteSongError"
  | some .http404 => "HTTP404Error"
  | some .sqlSanityCheck => "SQLSanityCheckError"
  | some .nonUniqueLyrics => "NonUniqueLyricsError"
  | some .nonUniqueAlbumYear => "NonUniqueAlbumYearError"
  | some .wrongAlbumYear => "WrongAlbumYearError"

/-- `_add_skipped_url` (lyrics_scraper.py:485-504):
`skipped_urls.setdefault(url, [])` followed by appending the message. -/
def addSkippedUrl : List (String × List String) → String → String →
    List (String × List String)
  | [], url, msg => [(url, [msg])]
  | e :: rest, url, msg =>
    if e.1 == url then (e.1, e.2 ++ [msg]) :: rest
    else e :: addSkippedUrl rest url msg

/-- The list of error messages recorded for a URL in `skipped_urls`. -/
def lookupSkipped : List (String × List String) → String → List String
  | [], _ => []
  | e :: rest, url => if e.1 == url then e.2 else lookupSkipped rest url

/-- The loop-visible state of the current `start_scraping`: the
`skipped_urls` dictionary, the `good_urls` set, and whether `self.db_conn`
holds a connection object (in this revision `__init__` leaves it `None`,
lyrics_scraper.py:241). -/
structure OrchState where
  skippedUrls : List (String × List String)
  goodUrls : List String
  dbConn : Bool
  deriving DecidableEq, Repr

inductive RunEvent where
  | openConn
  | processUrl (url : String)
  | closeConn
  deriving DecidableEq, Repr

/-- An exception that escapes the `start_scraping` loop. -/
inductive AbortError where
  | uncaught (e : UrlError)
  | attributeError
  deriving DecidableEq, Repr

structure RunOutcome where
  state : OrchState
  trace : List RunEvent
  aborted : Option AbortError
  deriving DecidableEq, Repr

/-- One iteration of the current `start_scraping` loop body
(lyrics_scraper.py:424-458).  The `finally` clause runs `self.db_conn.close()`
first — an `AttributeError` when `db_conn` is `None`, which skips the
bookkeeping — then records the URL as skipped (with `get_error_msg(error)`,
where `error` is still `None` for an uncaught exception) or good; a pending
uncaught exception then propagates. -/
def scrapeIter (process : String → Except UrlError Unit) (st : OrchState)
    (url : String) : RunOutcome :=
  if st.dbConn then
    match process url with
    | .ok _ =>
      ⟨{ st with goodUrls := st.goodUrls ++ [url] },
        [RunEvent.processUrl url, RunEvent.closeConn], none⟩
    | .error e =>
      if caughtByLoop e then
        ⟨{ st with skippedUrls := addSkippedUrl st.skippedUrls url (getErrorMsg (some e)) },
          [RunEvent.processUrl url, RunEvent.closeConn], none⟩
      else
        ⟨{ st with skippedUrls := addSkippedUrl st.skippedUrls url (getErrorMsg none) },
          [RunEvent.processUrl url, RunEvent.closeConn], some (.uncaught e)⟩
  else ⟨st, [RunEvent.processUrl url], some .attributeError⟩

/-- The current `start_scraping` (lyrics_scraper.py:405-458): fold the loop
body over the configured URLs, stopping when an iteration lets an exception
escape.  The per-URL processing (`_process_url` plus `_scrape_webpage`) is a
parameter. -/
def startScraping (process : String → Except UrlError Unit) (st : OrchState) :
    List String → RunOutcome
  | [] => ⟨st, [], none⟩
  | u :: rest =>
    let r := scrapeIter process st u
    match r.aborted with
    | some a => ⟨r.state, r.trace, some a⟩
    | none =>
      let r2 := startScraping process r.state rest
      ⟨r2.state, r.trace ++ r2.trace, r2.aborted⟩

/-- The `except` clauses of the legacy `start_scraping`
(src/scrapers/lyrics_scraper.py:113-134): `OverwriteFileError` is the legacy
name modelled by `fileExists`, and no session-duplicate error exists there. -/
def legacyCaught : UrlError → Bool
  | .osError => true
  | .urlError => true
  | .http404 => true
  | .fileExists => true
  | .invalidURLDomain => true
  | .invalidURLCategory => true
  | .multipleLyricsURL => true
  | .sqlSanityCheck => true
  | .overwriteSong => true
  | _ => false

def legacyLoop (process : String → Except UrlError Unit) :
    List String → List RunEvent × Option UrlError
  | [] => ([], none)
  | u :: rest =>
    match process u with
    | .ok _ =>
      let r := legacyLoop process rest
      (RunEvent.processUrl u :: r.1, r.2)
    | .error e =>
      if legacyCaught e then
        let r := legacyLoop process rest
        (RunEvent.processUrl u :: r.1, r.2)
      else ([RunEvent.processUrl u], some e)

/-- The legacy `start_scraping` (src/scrapers/lyrics_scraper.py:93-134): it
connects to the database exactly once (`_connect_db`) before the loop and
never closes the connection anywhere. -/
def legacyStartScraping (process : String → Except UrlError Unit)
    (urls : List String) : List RunEvent × Option UrlError :=
  let r := legacyLoop process urls
  (RunEvent.openConn :: r.1, r.2)

/-- The number of occurrences of an event in a trace. -/
def countEvent (ev : RunEvent) (tr : List RunEvent) : Nat :=
  (tr.filter (fun e => e == ev)).length

/-- The URLs a trace shows as having entered processing, in order. -/
def processedUrls (tr : List RunEvent) : List String :=
  tr.filterMap (fun e =>
    match e with
    | .processUrl u => some u
    | _ => none)

theorem mem_lookupSkipped_addSkippedUrl (sk : List (String × List String))
    (url msg : String) : msg ∈ lookupSkipped (addSkippedUrl sk url msg) url := by
  induction sk with
  | nil => simp [addSkippedUrl, lookupSkipped]
  | cons e rest ih =>
    by_cases h : (e.1 == url) = true
    · simp [addSkippedUrl, lookupSkipped, h]
    · simp only [Bool.not_eq_true] at h
      simpa [addSkippedUrl, lookupSkipped, h] using ih

theorem lookupSkipped_addSkippedUrl_mono (sk : List (String × List String))
    (url msg url' m : String) (hm : m ∈ lookupSkipped sk url') :
    m ∈ lookupSkipped (addSkippedUrl sk url msg) url' := by
  induction sk with
  | nil => simp [lookupSkipped] at hm
  | cons e rest ih =>
    by_cases h : (e.1 == url) = true
    · by_cases h' : (e.1 == url') = true
      · simp only [lookupSkipped, h', if_true] at hm
        simp [addSkippedUrl, lookupSkipped, h, h', hm]
      · simp only [Bool.not_eq_true] at h'
        simp only [lookupSkipped, h'] at hm
        simpa [addSkippedUrl, lookupSkipped, h, h'] using hm
    · simp only [Bool.not_eq_true] at h
      by_cases h' : (e.1 == url') = true
      · simp only [lookupSkipped, h', if_true] at hm
        simp [addSkippedUrl, lookupSkipped, h, h', hm]
      · simp only [Bool.not_eq_true] at h'
        simp only [lookupSkipped, h'] at hm
        simpa [addSkippedUrl, lookupSkipped, h, h'] using ih hm

theorem startScraping_skipped_mono (process : String → Except UrlError Unit)
    (urls : List String) :
    ∀ (st : OrchState) (u m : String), m ∈ lookupSkipped st.skippedUrls u →
    m ∈ lookupSkipped (startScraping process st urls).state.skippedUrls u := by
  induction urls with
  | nil =>
    intro st u m hm
    simpa [startScraping] using hm
  | cons v rest ih =>
    intro st u m hm
    rw [startScraping]
    cases hdb : st.dbConn with
    | false => simpa [scrapeIter, hdb] using hm
    | true =>
      cases hres : process v with
      | ok _ =>
        simp only [scrapeIter, hdb, if_true, hres]
        exact ih _ u m hm
      | error e =>
        cases hc : caughtByLoop e with
        | true =>
          simp only [scrapeIter, hdb, if_true, hres, hc]
          exact ih _ u m (lookupSkipped_addSkippedUrl_mono _ _ _ _ _ hm)
        | false =>
          simp only [scrapeIter, hdb, if_true, hres, hc]
          exact lookupSkipped_addSkippedUrl_mono _ _ _ _ _ hm

/-- A per-URL processing in which the first URL fails lyrics extraction. -/
def extractionFailProcess : String → Except UrlError Unit :=
  fun u => if u == "u1" then Except.error UrlError.nonUniqueLyrics else Except.ok ()

/-- C6 (counterexample): `NonUniqueLyricsError` — an extraction-validation
error, part of the claim's recoverable set — is not among the loop's `except`
clauses, so a URL raising it aborts the whole run: with URLs `["u1", "u2"]`
and `u1` failing extraction, the run ends with the exception escaping and
`u2` is never processed, contradicting "the loop never aborts on a per-URL
exception". -/
theorem startScraping_extraction_error_aborts :
    (startScraping extractionFailProcess ⟨[], [], true⟩ ["u1", "u2"]).aborted =
      some (.uncaught .nonUniqueLyrics) ∧
    processedUrls (startScraping extractionFailProcess ⟨[], [], true⟩
      ["u1", "u2"]).trace = ["u1"] := by
  decide

/-- C6 (amended): provided the orchestrator's connection attribute is set,
whenever a URL's processing raises an error from the set the loop actually
catches (OS error, URL error, file-exists, current-session duplicate,
invalid domain, invalid category, multiple-URL-in-store, overwrite-song,
HTTP 404, SQL sanity check), that URL with the error's message is appended to
the skipped-URL accumulation and the loop continues: a run all of whose
per-URL errors are caught never aborts and processes every configured URL in
order.  Extraction-validation errors are not in the caught set and abort the
loop (see the counterexample). -/
theorem startScraping_caught_skip_and_continue
    (process : String → Except UrlError Unit) (urls : List String) :
    ∀ st : OrchState, st.dbConn = true →
    (∀ u e, u ∈ urls → process u = Except.error e → caughtByLoop e = true) →
    (startScraping process st urls).aborted = none ∧
    processedUrls (startScraping process st urls).trace = urls ∧
    (∀ u e, u ∈ urls → process u = Except.error e →
      getErrorMsg (some e) ∈
        lookupSkipped (startScraping process st urls).state.skippedUrls u) := by
  induction urls with
  | nil =>
    intro st hconn hcaught
    simp [startScraping, processedUrls]
  | cons u rest ih =>
    intro st hconn hcaught
    rw [startScraping]
    cases hres : process u with
    | ok _ =>
      simp only [scrapeIter, hconn, if_true, hres]
      obtain ⟨ihab, ihproc, ihskip⟩ :=
        ih ⟨st.skippedUrls, st.goodUrls ++ [u], true⟩ rfl
          (fun v e hv he => hcaught v e (List.mem_cons_of_mem u hv) he)
      refine ⟨ihab, ?_, ?_⟩
      · simp only [processedUrls, List.filterMap_append] at ihproc ⊢
        simp [processedUrls] at ihproc ⊢
        exact ihproc
      · intro v e hv he
        rcases List.mem_cons.mp hv with rfl | hv'
        · rw [hres] at he
          exact Except.noConfusion he
        · exact ihskip v e hv' he
    | error e =>
      have hcb : caughtByLoop e = true :=
        hcaught u e (List.mem_cons_self u rest) hres
      simp only [scrapeIter, hconn, if_true, hres, hcb]
      obtain ⟨ihab, ihproc, ihskip⟩ :=
        ih ⟨addSkippedUrl st.skippedUrls u (getErrorMsg (some e)),
              st.goodUrls, true⟩ rfl
          (fun v e' hv he => hcaught v e' (List.mem_cons_of_mem u hv) he)
      refine ⟨ihab, ?_, ?_⟩
      · simp only [processedUrls, List.filterMap_append] at ihproc ⊢
        simp [processedUrls] at ihproc ⊢
        exact ihproc
      · intro v e' hv he
        rcases List.mem_cons.mp hv with hvu | hv'
        · rw [hvu, hres] at he
          have he' : e' = e := (Except.error.inj he).symm
          rw [hvu, he']
          exact startScraping_skipped_mono process rest _ u _
            (mem_lookupSkipped_addSkippedUrl st.skippedUrls u (getErrorMsg (some e)))
        · exact ihskip v e' hv' he

/-- A per-URL processing in which the first URL hits an invalid domain. -/
def domainFailProcess : String → Except UrlError Unit :=
  fun u => if u == "a" then Except.error UrlError.invalidURLDomain else Except.ok ()

/-- Witness for `startScraping_caught_skip_and_continue`: a two-URL run whose
first URL raises the (caught) invalid-domain error. -/
theorem startScraping_caught_skip_and_continue_witness :
    (startScraping domainFailProcess ⟨[], [], true⟩ ["a", "b"]).aborted = none ∧
    processedUrls (startScraping domainFailProcess ⟨[], [], true⟩
      ["a", "b"]).trace = ["a", "b"] ∧
    (∀ u e, u ∈ ["a", "b"] → domainFailProcess u = Except.error e →
      getErrorMsg (some e) ∈
        lookupSkipped (startScraping domainFailProcess ⟨[], [], true⟩
          ["a", "b"]).state.skippedUrls u) :=
  startScraping_caught_skip_and_continue domainFailProcess ["a", "b"]
    ⟨[], [], true⟩ rfl
    (by
      intro u e hu he
      fin_cases hu
      · exact (Except.error.inj
          (show (Except.error UrlError.invalidURLDomain : Except UrlError Unit) =
            Except.error e from he)) ▸ rfl
      · exact Except.noConfusion
          (show (Except.ok () : Except UrlError Unit) = Except.error e from he))

theorem legacyLoop_no_open_close (process : String → Except UrlError Unit)
    (urls : List String) :
    countEvent RunEvent.openConn (legacyLoop process urls).1 = 0 ∧
    countEvent RunEvent.closeConn (legacyLoop process urls).1 = 0 := by
  induction urls with
  | nil => simp [legacyLoop, countEvent]
  | cons u rest ih =>
    rw [legacyLoop]
    cases hres : process u with
    | ok _ => simpa [countEvent, List.filter_cons] using ih
    | error e =>
      cases hc : legacyCaught e with
      | true => simpa [hc, countEvent, List.filter_cons] using ih
      | false => simp [hc, countEvent, List.filter_cons]

theorem startScraping_close_per_url (process : String → Except UrlError Unit)
    (urls : List String) :
    ∀ st : OrchState, st.dbConn = true →
    countEvent RunEvent.closeConn (startScraping process st urls).trace =
      (processedUrls (startScraping process st urls).trace).length := by
  induction urls with
  | nil =>
    intro st hconn
    simp [startScraping, countEvent, processedUrls]
  | cons u rest ih =>
    intro st hconn
    rw [startScraping]
    cases hres : process u with
    | ok _ =>
      simp only [scrapeIter, hconn, if_true, hres]
      have h := ih ⟨st.skippedUrls, st.goodUrls ++ [u], true⟩ rfl
      simp only [countEvent, processedUrls] at h ⊢
      simp [List.filter_append, List.filterMap_append, List.filter_cons] at h ⊢
      omega
    | error e =>
      cases hc : caughtByLoop e with
      | true =>
        simp only [scrapeIter, hconn, if_true, hres, hc]
        have h := ih ⟨addSkippedUrl st.skippedUrls u (getErrorMsg (some e)),
          st.goodUrls, true⟩ rfl
        simp only [countEvent, processedUrls] at h ⊢
        simp [List.filter_append, List.filterMap_append, List.filter_cons] at h ⊢
        omega
      | false =>
        simp only [scrapeIter, hconn, if_true, hres, hc]
        simp [countEvent, processedUrls]

/-- C8 (counterexample): with two URLs and every processing succeeding, the
legacy revision's run contains no close event at all (`0 ≠ 1` closes), and the
current revision's run closes the connection inside the first URL's `finally`
block — before the second URL is processed — rather than once at run end. -/
theorem dbConnection_lifecycle_counterexample :
    countEvent RunEvent.closeConn
      (legacyStartScraping (fun _ => Except.ok ()) ["u1", "u2"]).1 = 0 ∧
    (startScraping (fun _ => Except.ok ()) ⟨[], [], true⟩ ["u1", "u2"]).trace =
      [RunEvent.processUrl "u1", RunEvent.closeConn,
       RunEvent.processUrl "u2", RunEvent.closeConn] := by
  decide

/-- C8 (amended): in the legacy revision the store connection is opened
exactly once, at startup before any URL is processed, and is never closed,
not even at run end; the current revision's `start_scraping` opens no
connection and instead calls `close` on the connection attribute inside every
URL's `finally` block — one close per processed URL instead of a single close
after the last one. -/
theorem dbConnection_lifecycle :
    (∀ process urls,
      (legacyStartScraping process urls).1.head? = some RunEvent.openConn ∧
      countEvent RunEvent.openConn (legacyStartScraping process urls).1 = 1 ∧
      countEvent RunEvent.closeConn (legacyStartScraping process urls).1 = 0) ∧
    (∀ process st urls, st.dbConn = true →
      countEvent RunEvent.closeConn (startScraping process st urls).trace =
        (processedUrls (startScraping process st urls).trace).length) := by
  constructor
  · intro process urls
    obtain ⟨ho, hc⟩ := legacyLoop_no_open_close process urls
    refine ⟨rfl, ?_, ?_⟩
    · simp only [legacyStartScraping, countEvent] at ho ⊢
      simp [List.filter_cons, ho]
    · simp only [legacyStartScraping, countEvent] at hc ⊢
      simpa [List.filter_cons] using hc
  · intro process st urls h
    exact startScraping_close_per_url process urls st h

/-- Witness for `dbConnection_lifecycle`: the per-URL-close count on a
concrete one-URL run with a live connection. -/
theorem dbConnection_lifecycle_witness :
    countEvent RunEvent.closeConn
      (startScraping (fun _ => Except.ok ()) ⟨[], [], true⟩ ["a"]).trace =
    (processedUrls
      (startScraping (fun _ => Except.ok ()) ⟨[], [], true⟩ ["a"]).trace).length :=
  dbConnection_lifecycle.2 (fun _ => Except.ok ()) ⟨[], [], true⟩ ["a"] rfl

/-! ## Artist-page album extraction (claim C7) -/

/-- A sibling-level item of an artist page.  azlyrics artist pages are a flat
sequence in which the `<div class="album">` markers, the song anchors, and
other tags (such as `<br/>`) are siblings; `find_next_siblings()` on a marker
returns the items after it.  For a marker, `title` is the result of
`_get_album_title_from_div_tag` (`contents[1].text.strip('"')`) and `text` is
the tag's displayed text. -/
inductive PageItem where
  | albumDiv (title : List Char) (text : List Char)
  | anchor (href : String) (songTitle : String)
  | misc
  deriving DecidableEq, Repr

/-- Whether `pat` occurs as a contiguous substring (Python
`text.count(pat)` truthiness, azlyrics_scraper.py:445). -/
def containsSub (pat : List Char) : List Char → Bool
  | [] => pat.isEmpty
  | c :: rest => List.isPrefixOf pat (c :: rest) || containsSub pat rest

/-- The scheme and host of the artist page URL, as `urlparse` yields them. -/
structure UrlParts where
  scheme : String
  host : String
  deriving DecidableEq, Repr

/-- `_complete_relative_url(relative_url, base_url)` (azlyrics_scraper.py:
1088-1105): `scheme://host` plus the relative part. -/
def completeRelativeUrl (relativeUrl : String) (base : UrlParts) : String :=
  base.scheme ++ "://" ++ base.host ++ relativeUrl

/-- Python string slice `s[2:]` (the `../` strip in `anchor_tag['href'][2:]`,
azlyrics_scraper.py:677). -/
def stringDrop2 (s : String) : String :=
  String.mk (s.toList.drop 2)

/-- One value of the `albums` dictionary: the album's year (`int(...)` for a
named album, the empty marker `none` for the "other songs" pseudo-album) and
its `(song_url, song_title)` pairs. -/
structure AlbumEntry where
  albumYear : Option Nat
  songs : List (String × String)
  deriving DecidableEq, Repr

/-- The `albums` dictionary of `_get_albums_from_artist_webpage`, in
insertion order. -/
abbrev AlbumsMap := List (List Char × AlbumEntry)

/-- The section-marker text `"other songs"` tested by
`div.text.count("other songs")` (azlyrics_scraper.py:445). -/
def otherSongsMarker : List Char :=
  "other songs".toList

/-- The INTENDED `_update_albums_dict` (azlyrics_scraper.py:656-679):
`setdefault` the album's entry — keeping an already-present year — then
append the song.  The song URL completion of line 677 is read as the
module-level `complete_relative_url` (azlyrics_scraper.py:1088-1105), the
call the same file's newer rewrite makes (`Albums.update_albums`, line 1281).
As actually written, line 677 calls `self._complete_relative_url`, a method
that exists nowhere, so every call raises `AttributeError`; that behavior is
embedded separately as `updateAlbumsDictActual`. -/
def updateAlbumsDict (href songTitle : String) (albumTitle : List Char)
    (albumYear : Option Nat) (artistUrl : UrlParts) :
    AlbumsMap → AlbumsMap
  | [] =>
    [(albumTitle,
      ⟨albumYear, [(completeRelativeUrl (stringDrop2 href) artistUrl, songTitle)]⟩)]
  | e :: rest =>
    if e.1 == albumTitle then
      (e.1, ⟨e.2.albumYear,
        e.2.songs ++ [(completeRelativeUrl (stringDrop2 href) artistUrl, songTitle)]⟩)
        :: rest
    else e :: updateAlbumsDict href songTitle albumTitle albumYear artistUrl rest

/-- The sibling scan of `_add_songs_from_same_album`
(azlyrics_scraper.py:216-238) under the intended song append: each anchor is
added as a song of the album; the scan stops at the next album marker; other
siblings are skipped. -/
def addAlbumSiblings (albumTitle : List Char) (albumYear : Option Nat)
    (artistUrl : UrlParts) (albums : AlbumsMap) : List PageItem → AlbumsMap
  | [] => albums
  | .anchor href t :: rest =>
    addAlbumSiblings albumTitle albumYear artistUrl
      (updateAlbumsDict href t albumTitle albumYear artistUrl albums) rest
  | .albumDiv _ _ :: _ => albums
  | .misc :: rest => addAlbumSiblings albumTitle albumYear artistUrl albums rest

/-- `_add_songs_from_same_album` (azlyrics_scraper.py:176-243): extract the
year groups from the marker's text and validate them; on a validation error,
skip the whole block when `ignore_errors` is set and re-raise otherwise; on
success, add the block's songs with the year coerced by `int(...)`.  The
song append is the intended one (see `updateAlbumsDict`). -/
def addSongsFromSameAlbum (ignoreErrors : Bool) (albumTitle text : List Char)
    (siblings : List PageItem) (artistUrl : UrlParts) (albums : AlbumsMap) :
    Except YearError AlbumsMap :=
  let yearResult := findallParenDigits text
  match checkAlbumYear yearResult with
  | .error e => if ignoreErrors then .ok albums else .error e
  | .ok _ =>
    .ok (addAlbumSiblings albumTitle (some (digitsToNat (yearResult.headD [])))
      artistUrl albums siblings)

/-- The sibling scan of `_add_songs_without_albums`
(azlyrics_scraper.py:263-279) under the intended song append: every anchor
among ALL following siblings is added under the empty album title — this
scan has no album-marker stop. -/
def addOtherSiblings (artistUrl : UrlParts) (albums : AlbumsMap) :
    List PageItem → AlbumsMap
  | [] => albums
  | .anchor href t :: rest =>
    addOtherSiblings artistUrl (updateAlbumsDict href t [] none artistUrl albums) rest
  | _ :: rest => addOtherSiblings artistUrl albums rest

/-- `_add_songs_without_albums` (azlyrics_scraper.py:244-287): the
"other songs" section contributes its anchors only when
`include_unknown_year` is set. -/
def addSongsWithoutAlbums (includeUnknownYear : Bool) (artistUrl : UrlParts)
    (albums : AlbumsMap) (siblings : List PageItem) : AlbumsMap :=
  if includeUnknownYear then addOtherSiblings artistUrl albums siblings
  else albums

/-- `_get_albums_from_artist_webpage` (azlyrics_scraper.py:415-450) under the
intended song append: process each `<div class="album">` marker in document
order, dispatching on whether its text mentions "other songs".  The code as
written is embedded as `getAlbumsFromArtistWebpageActual`. -/
def getAlbumsFromArtistWebpage (ignoreErrors includeUnknownYear : Bool)
    (artistUrl : UrlParts) (albums : AlbumsMap) :
    List PageItem → Except YearError AlbumsMap
  | [] => .ok albums
  | .albumDiv title text :: rest =>
    if containsSub otherSongsMarker text then
      getAlbumsFromArtistWebpage ignoreErrors includeUnknownYear artistUrl
        (addSongsWithoutAlbums includeUnknownYear artistUrl albums rest) rest
    else
      match addSongsFromSameAlbum ignoreErrors title text rest artistUrl albums with
      | .error e => .error e
      | .ok albums' =>
        getAlbumsFromArtistWebpage ignoreErrors includeUnknownYear artistUrl
          albums' rest
  | _ :: rest =>
    getAlbumsFromArtistWebpage ignoreErrors includeUnknownYear artistUrl albums rest

/-- The exceptions that can escape `_get_albums_from_artist_webpage`: the
two year-validation errors, and the `AttributeError` raised by evaluating
`self._complete_relative_url` (azlyrics_scraper.py:677) — no such method
exists on `AZLyricsScraper` or its base class; only the module-level
`complete_relative_url` (line 1088) does. -/
inductive ArtistPageError where
  | yearError (e : YearError)
  | attributeError
  deriving DecidableEq, Repr

/-- `_update_albums_dict` (azlyrics_scraper.py:656-679) AS WRITTEN: line 677
evaluates the nonexistent attribute `self._complete_relative_url`, so every
call raises `AttributeError` before a song is appended.  The `setdefault`
calls of lines 674-676 do run first, but their effect is unobservable: the
exception escapes `_get_albums_from_artist_webpage`, whose local dictionary
they mutate. -/
def updateAlbumsDictActual (_href _songTitle : String) (_albumTitle : List Char)
    (_albumYear : Option Nat) (_artistUrl : UrlParts) (_albums : AlbumsMap) :
    Except ArtistPageError AlbumsMap :=
  .error .attributeError

/-- The sibling scan of `_add_songs_from_same_album`
(azlyrics_scraper.py:216-238) as written: the loop would add each anchor and
stop at the next album marker, but the first anchor's `_update_albums_dict`
call raises. -/
def addAlbumSiblingsActual (albumTitle : List Char) (albumYear : Option Nat)
    (artistUrl : UrlParts) (albums : AlbumsMap) :
    List PageItem → Except ArtistPageError AlbumsMap
  | [] => .ok albums
  | .anchor href t :: rest =>
    match updateAlbumsDictActual href t albumTitle albumYear artistUrl albums with
    | .error e => .error e
    | .ok albums' => addAlbumSiblingsActual albumTitle albumYear artistUrl albums' rest
  | .albumDiv _ _ :: _ => .ok albums
  | .misc :: rest => addAlbumSiblingsActual albumTitle albumYear artistUrl albums rest

/-- `_add_songs_from_same_album` (azlyrics_scraper.py:176-243) as written:
the year handling is unchanged, but a valid block's sibling scan raises
`AttributeError` at its first anchor. -/
def addSongsFromSameAlbumActual (ignoreErrors : Bool) (albumTitle text : List Char)
    (siblings : List PageItem) (artistUrl : UrlParts) (albums : AlbumsMap) :
    Except ArtistPageError AlbumsMap :=
  let yearResult := findallParenDigits text
  match checkAlbumYear yearResult with
  | .error e => if ignoreErrors then .ok albums else .error (.yearError e)
  | .ok _ =>
    addAlbumSiblingsActual albumTitle (some (digitsToNat (yearResult.headD [])))
      artistUrl albums siblings

/-- The sibling scan of `_add_songs_without_albums`
(azlyrics_scraper.py:263-279) as written: no album-marker stop, and the first
anchor's `_update_albums_dict` call raises. -/
def addOtherSiblingsActual (artistUrl : UrlParts) (albums : AlbumsMap) :
    List PageItem → Except ArtistPageError AlbumsMap
  | [] => .ok albums
  | .anchor href t :: rest =>
    match updateAlbumsDictActual href t [] none artistUrl albums with
    | .error e => .error e
    | .ok albums' => addOtherSiblingsActual artistUrl albums' rest
  | _ :: rest => addOtherSiblingsActual artistUrl albums rest

/-- `_add_songs_without_albums` (azlyrics_scraper.py:244-287) as written. -/
def addSongsWithoutAlbumsActual (includeUnknownYear : Bool) (artistUrl : UrlParts)
    (albums : AlbumsMap) (siblings : List PageItem) :
    Except ArtistPageError AlbumsMap :=
  if includeUnknownYear then addOtherSiblingsActual artistUrl albums siblings
  else .ok albums

/-- `_get_albums_from_artist_webpage` (azlyrics_scraper.py:415-450) as
written: identical dispatch, but the song appends raise, so any block that
reaches an anchor fails the whole page with `AttributeError` regardless of
`ignore_errors`. -/
def getAlbumsFromArtistWebpageActual (ignoreErrors includeUnknownYear : Bool)
    (artistUrl : UrlParts) (albums : AlbumsMap) :
    List PageItem → Except ArtistPageError AlbumsMap
  | [] => .ok albums
  | .albumDiv title text :: rest =>
    if containsSub otherSongsMarker text then
      match addSongsWithoutAlbumsActual includeUnknownYear artistUrl albums rest with
      | .error e => .error e
      | .ok albums' =>
        getAlbumsFromArtistWebpageActual ignoreErrors includeUnknownYear artistUrl
          albums' rest
    else
      match addSongsFromSameAlbumActual ignoreErrors title text rest artistUrl albums with
      | .error e => .error e
      | .ok albums' =>
        getAlbumsFromArtistWebpageActual ignoreErrors includeUnknownYear artistUrl
          albums' rest
  | _ :: rest =>
    getAlbumsFromArtistWebpageActual ignoreErrors includeUnknownYear artistUrl
      albums rest

/-- Modelled from the spec (§4.4, §8): every marker block is processed in
document order; a named block whose year text is malformed or non-unique is
skipped — it contributes zero songs — while every other block is processed
normally: a valid named block contributes the anchors up to the next marker,
and the "other songs" pseudo-album contributes according to
`include_unknown_year`. -/
def specArtistPageAlbums (includeUnknownYear : Bool) (artistUrl : UrlParts)
    (albums : AlbumsMap) : List PageItem → AlbumsMap
  | [] => albums
  | .albumDiv title text :: rest =>
    if containsSub otherSongsMarker text then
      specArtistPageAlbums includeUnknownYear artistUrl
        (addSongsWithoutAlbums includeUnknownYear artistUrl albums rest) rest
    else
      match checkAlbumYear (findallParenDigits text) with
      | .error _ => specArtistPageAlbums includeUnknownYear artistUrl albums rest
      | .ok _ =>
        specArtistPageAlbums includeUnknownYear artistUrl
          (addAlbumSiblings title
            (some (digitsToNat ((findallParenDigits text).headD [])))
            artistUrl albums rest) rest
  | _ :: rest => specArtistPageAlbums includeUnknownYear artistUrl albums rest

/-- A named album marker whose year text fails validation. -/
def invalidNamedBlock : PageItem → Bool
  | .albumDiv _ text =>
    !containsSub otherSongsMarker text &&
    !(checkAlbumYear (findallParenDigits text)).isOk
  | _ => false

/-- Under the INTENDED semantics (`getAlbumsFromArtistWebpage`, with the
song append fixed as in `Albums.update_albums`): with `ignore_errors = True`
the page never fails — a named album block with a malformed or non-unique
year is logged and skipped, contributing zero songs, and every other block is
still processed normally (the run computes exactly the spec-side processing
that skips invalid named blocks); with `ignore_errors = False`, any page
containing an invalid named block makes the whole page fail with a
year-validation error.  This is the behavior claim C7 describes; the code as
written cannot exhibit it (see `artistPage_attributeError_on_valid_album`). -/
theorem artistPage_year_error_handling_intended :
    (∀ inclUnknown artistUrl albums page,
      getAlbumsFromArtistWebpage true inclUnknown artistUrl albums page =
        Except.ok (specArtistPageAlbums inclUnknown artistUrl albums page)) ∧
    (∀ inclUnknown artistUrl albums page,
      (∃ it, it ∈ page ∧ invalidNamedBlock it = true) →
      ∃ e, getAlbumsFromArtistWebpage false inclUnknown artistUrl albums page =
        Except.error e) := by
  constructor
  · intro inclUnknown artistUrl albums page
    induction page generalizing albums with
    | nil => rfl
    | cons it rest ih =>
      cases it with
      | albumDiv title text =>
        rw [getAlbumsFromArtistWebpage, specArtistPageAlbums]
        by_cases hos : containsSub otherSongsMarker text = true
        · simp only [hos, if_true]
          exact ih _
        · simp only [Bool.not_eq_true] at hos
          simp only [hos, Bool.false_eq_true, if_false, addSongsFromSameAlbum]
          cases hy : checkAlbumYear (findallParenDigits text) with
          | error e => exact ih _
          | ok _ => exact ih _
      | anchor href t =>
        show getAlbumsFromArtistWebpage true inclUnknown artistUrl albums rest =
          Except.ok (specArtistPageAlbums inclUnknown artistUrl albums rest)
        exact ih albums
      | misc =>
        show getAlbumsFromArtistWebpage true inclUnknown artistUrl albums rest =
          Except.ok (specArtistPageAlbums inclUnknown artistUrl albums rest)
        exact ih albums
  · intro inclUnknown artistUrl albums page
    induction page generalizing albums with
    | nil =>
      rintro ⟨it, hmem, _⟩
      exact absurd hmem (List.not_mem_nil it)
    | cons hd rest ih =>
      rintro ⟨it, hmem, hbad⟩
      cases hd with
      | albumDiv title text =>
        rw [getAlbumsFromArtistWebpage]
        by_cases hos : containsSub otherSongsMarker text = true
        · simp only [hos, if_true]
          rcases List.mem_cons.mp hmem with heq | hmem'
          · rw [heq] at hbad
            simp [invalidNamedBlock, hos] at hbad
          · exact ih _ ⟨it, hmem', hbad⟩
        · simp only [Bool.not_eq_true] at hos
          simp only [hos, Bool.false_eq_true, if_false, addSongsFromSameAlbum]
          cases hy : checkAlbumYear (findallParenDigits text) with
          | error e => exact ⟨e, rfl⟩
          | ok _ =>
            rcases List.mem_cons.mp hmem with heq | hmem'
            · rw [heq] at hbad
              simp [invalidNamedBlock, hos, hy, Except.isOk, Except.toBool] at hbad
            · exact ih _ ⟨it, hmem', hbad⟩
      | anchor href t =>
        have hmem' : it ∈ rest := by
          rcases List.mem_cons.mp hmem with heq | hm
          · rw [heq] at hbad
            simp [invalidNamedBlock] at hbad
          · exact hm
        show ∃ e, getAlbumsFromArtistWebpage false inclUnknown artistUrl albums
          rest = Except.error e
        exact ih albums ⟨it, hmem', hbad⟩
      | misc =>
        have hmem' : it ∈ rest := by
          rcases List.mem_cons.mp hmem with heq | hm
          · rw [heq] at hbad
            simp [invalidNamedBlock] at hbad
          · exact hm
        show ∃ e, getAlbumsFromArtistWebpage false inclUnknown artistUrl albums
          rest = Except.error e
        exact ih albums ⟨it, hmem', hbad⟩

/-- A concrete artist page: a valid 1981 album with one song, then an album
whose year text is the malformed `"(19)"`, then one more anchor. -/
def badYearPage : List PageItem :=
  [ PageItem.albumDiv "GoodAlbum".toList "album: \"GoodAlbum\" (1981)".toList,
    PageItem.anchor "../lyrics/artist/song1.html" "Song1",
    PageItem.albumDiv "BadAlbum".toList "album: \"BadAlbum\" (19)".toList,
    PageItem.anchor "../lyrics/artist/song2.html" "Song2" ]

/-- `artistPage_year_error_handling_intended` instantiated on `badYearPage`. -/
theorem artistPage_year_error_handling_intended_witness :
    getAlbumsFromArtistWebpage true false ⟨"https", "www.azlyrics.com"⟩ []
      badYearPage =
      Except.ok (specArtistPageAlbums false ⟨"https", "www.azlyrics.com"⟩ []
        badYearPage) ∧
    ∃ e, getAlbumsFromArtistWebpage false false ⟨"https", "www.azlyrics.com"⟩ []
      badYearPage = Except.error e :=
  ⟨artistPage_year_error_handling_intended.1 false ⟨"https", "www.azlyrics.com"⟩ []
      badYearPage,
   artistPage_year_error_handling_intended.2 false ⟨"https", "www.azlyrics.com"⟩ []
      badYearPage
      ⟨PageItem.albumDiv "BadAlbum".toList "album: \"BadAlbum\" (19)".toList,
        by decide, by decide⟩⟩

/-- An artist page holding a single VALID named album block followed by one
song anchor — the minimal page on which a block should contribute a song. -/
def goodAlbumPage : List PageItem :=
  [ PageItem.albumDiv "GoodAlbum".toList "album: \"GoodAlbum\" (1981)".toList,
    PageItem.anchor "../lyrics/artist/song1.html" "Song1" ]

/-- C7: evaluation at the failing input.  On `goodAlbumPage` — one valid
album block with one song, no bad year anywhere — the code as written raises
`AttributeError` under both `ignore_errors` settings, because
`_update_albums_dict` calls the nonexistent `self._complete_relative_url`
(azlyrics_scraper.py:677); no album block can ever contribute a song, so the
claim's "every other album block is still processed normally" cannot hold as
written.  Under the intended song append — the module-level
`complete_relative_url`, the call the same file's newer rewrite makes at
line 1281 — the same page is processed normally, and the claim's full
behavior holds (`artistPage_year_error_handling_intended`). -/
theorem artistPage_attributeError_on_valid_album :
    getAlbumsFromArtistWebpageActual true false ⟨"https", "www.azlyrics.com"⟩ []
      goodAlbumPage = Except.error .attributeError ∧
    getAlbumsFromArtistWebpageActual false false ⟨"https", "www.azlyrics.com"⟩ []
      goodAlbumPage = Except.error .attributeError ∧
    getAlbumsFromArtistWebpage true false ⟨"https", "www.azlyrics.com"⟩ []
      goodAlbumPage =
      Except.ok [("GoodAlbum".toList,
        ⟨some 1981,
         [("https://www.azlyrics.com/lyrics/artist/song1.html", "Song1")]⟩)] := by
  decide

/-! ## The context-manager exit (claim C10) -/

inductive PyError where
  | attributeError
  deriving DecidableEq, Repr

/-- `LyricsScraper.__exit__` (lyrics_scraper.py:1057-1060): it runs
`self.compute_cache.db_conn.close()` and returns `True`.  When the scraper
was built with `use_compute_cache=False`, `self.compute_cache` is `None`
(lyrics_scraper.py:295), so the attribute access raises `AttributeError`
before the `return`. -/
def exitMethod (computeCache : Option Unit) : Except PyError Bool :=
  match computeCache with
  | none => .error .attributeError
  | some _ => .ok true

/-- Python `with`-statement semantics around an optional body exception:
`__exit__` always runs; an exception it raises propagates (replacing the
body's); otherwise a truthy return suppresses the body's exception and a
falsy one lets it propagate. -/
def withBlockOutcome {ε : Type} (computeCache : Option Unit)
    (bodyExc : Option ε) : Option (ε ⊕ PyError) :=
  match bodyExc with
  | none =>
    match exitMethod computeCache with
    | .error pe => some (.inr pe)
    | .ok _ => none
  | some e =>
    match exitMethod computeCache with
    | .error pe => some (.inr pe)
    | .ok b => if b then none else some (.inl e)

/-- C10 (counterexample): for a scraper built with `use_compute_cache=False`,
an exception in the `with` block is NOT silently suppressed — `__exit__`
itself raises `AttributeError`, and that exception reaches the caller. -/
theorem exitMethod_no_cache_counterexample :
    withBlockOutcome (ε := UrlError) none (some UrlError.osError) =
      some (Sum.inr PyError.attributeError) ∧
    withBlockOutcome (ε := UrlError) none (some UrlError.osError) ≠ none := by
  decide

/-- C10 (amended): whenever the scraper holds a compute cache (the default,
`use_compute_cache=True`), `__exit__` returns `True` unconditionally, so
every exception raised inside the `with` block — including fatal,
process-level ones — is silently suppressed and never reaches the caller;
with the compute cache disabled, `__exit__` instead raises `AttributeError`
while handling the exception. -/
theorem exitMethod_suppresses_exceptions {ε : Type} (cc : Option Unit) (e : ε)
    (h : cc.isSome = true) :
    exitMethod cc = Except.ok true ∧ withBlockOutcome cc (some e) = none := by
  match cc, h with
  | some _, _ => exact ⟨rfl, rfl⟩

/-- Witness for `exitMethod_suppresses_exceptions` with a concrete body
exception. -/
theorem exitMethod_suppresses_exceptions_witness :
    exitMethod (some ()) = Except.ok true ∧
    withBlockOutcome (ε := UrlError) (some ())
      (some UrlError.nonUniqueLyrics) = none :=
  exitMethod_suppresses_exceptions (some ()) UrlError.nonUniqueLyrics rfl
